import Mathlib

/-!
Verification of the mission simulation engine of the aerodense control
station (the `useSimulation` hook).  The engine's four pieces of state
(order list, aircraft, mission, active-mission id) and its command
surface (`approveOrder`, `rejectOrder`, `addOrder`, `startMission`,
`emergencyStop`, `returnHome`, `toggleCamera`) together with the
periodic simulation tick are embedded shallowly below.  JavaScript
numbers are modelled as real numbers; the stochastic jitter drawn from
`Math.random()` in the tick callback is passed in explicitly as a
`TickRand` record; JavaScript truthiness of the `string | null` field
`activeMissionOrderId` (both `null` and the empty string are falsy) is
modelled literally.
-/

namespace AeroDense

/-- Status of a delivery order, the string union
`"Pending" | "Approved" | "In Flight" | "Delivered"`. -/
inductive OrderStatus where
  | Pending
  | Approved
  | InFlight
  | Delivered
deriving DecidableEq, Repr

/-- Operational status of the aircraft, the string union
`"Idle" | "In Flight" | "Landing" | "Charging"`. -/
inductive AircraftStatus where
  | Idle
  | InFlight
  | Landing
  | Charging
deriving DecidableEq, Repr

/-- Control mode of the aircraft, `"Manual" | "Semi-Auto" | "Auto"`. -/
inductive ControlMode where
  | Manual
  | SemiAuto
  | Auto
deriving DecidableEq, Repr

/-- A delivery order.  The `Order` interface itself lives in
`OrdersPanel`; its fields are read off from the `initialOrders`
literals and the field accesses in the engine. -/
structure Order where
  id : String
  packageType : String
  weight : String
  pickup : String
  delivery : String
  status : OrderStatus
deriving DecidableEq, Repr

/-- A geographic coordinate as stored in the named-location table. -/
structure Coord where
  lat : ℝ
  lng : ℝ

/-- The `AircraftState` interface.  The interface itself declares no
`speed` field, but both `startMission` and the completion tick spread a
`speed` property onto the aircraft object; that runtime-only property is
modelled as an `Option`, absent (`none`) initially. -/
structure AircraftState where
  battery : ℝ
  payloadWeight : ℝ
  maxPayload : ℝ
  status : AircraftStatus
  mode : ControlMode
  signal : ℝ
  satellites : ℝ
  cameraActive : Bool
  speed : Option ℝ

/-- The `MissionState` interface: progress percentage, elapsed and eta
in seconds, distance in km, altitude in meters, speed in km/h, route
progress as a 0-1 fraction, and the route as (lng, lat) pairs. -/
structure MissionState where
  progress : ℝ
  elapsed : ℝ
  eta : ℝ
  distance : ℝ
  altitude : ℝ
  speed : ℝ
  routeProgress : ℝ
  route : List (ℝ × ℝ)

/-- The whole engine state held by the `useSimulation` hook. -/
structure EngineState where
  orders : List Order
  aircraft : AircraftState
  mission : MissionState
  activeMissionOrderId : Option String

/-- The `initialAircraft` constant. -/
def initialAircraft : AircraftState :=
  { battery := 87
    payloadWeight := 0
    maxPayload := 5
    status := AircraftStatus.Idle
    signal := 98
    satellites := 12
    cameraActive := true
    mode := ControlMode.SemiAuto
    speed := none }

/-- The `initialMission` constant. -/
def initialMission : MissionState :=
  { progress := 0
    elapsed := 0
    eta := 0
    distance := 0
    altitude := 150
    speed := 0
    routeProgress := 0
    route := [] }

/-- The static named-location table `locationCoordinates`. -/
noncomputable def locationCoordinates : String → Option Coord
  | "Warehouse A" => some ⟨13.0827, 80.2707⟩
  | "Hospital B" => some ⟨13.0604, 80.2496⟩
  | "Depot C" => some ⟨13.0878, 80.2785⟩
  | "Office Park D" => some ⟨13.0569, 80.2425⟩
  | "Kitchen Hub" => some ⟨13.0475, 80.2090⟩
  | "Residential Zone E" => some ⟨13.1067, 80.2206⟩
  | "HQ Tower" => some ⟨13.0843, 80.2705⟩
  | "Branch Office F" => some ⟨13.0108, 80.2270⟩
  | "Lab Center G" => some ⟨13.0127, 80.2351⟩
  | "Research Facility H" => some ⟨13.0674, 80.2376⟩
  | "Factory I" => some ⟨13.1143, 80.1548⟩
  | "Maintenance Bay J" => some ⟨13.0358, 80.1790⟩
  | _ => none

/-- The `initialOrders` seed set. -/
def initialOrders : List Order :=
  [ ⟨"ORD-4821", "Medical Supplies", "2.4 kg", "Warehouse A", "Hospital B", OrderStatus.Pending⟩,
    ⟨"ORD-4822", "Electronics", "1.8 kg", "Depot C", "Office Park D", OrderStatus.Pending⟩,
    ⟨"ORD-4823", "Food Package", "3.1 kg", "Kitchen Hub", "Residential Zone E", OrderStatus.Pending⟩,
    ⟨"ORD-4824", "Documents", "0.5 kg", "HQ Tower", "Branch Office F", OrderStatus.Pending⟩,
    ⟨"ORD-4825", "Lab Samples", "1.2 kg", "Lab Center G", "Research Facility H", OrderStatus.Pending⟩,
    ⟨"ORD-4826", "Spare Parts", "4.0 kg", "Factory I", "Maintenance Bay J", OrderStatus.Pending⟩ ]

/-- The initial engine state of the hook: seed orders, idle aircraft,
empty mission, no active mission id. -/
def initialState : EngineState :=
  { orders := initialOrders
    aircraft := initialAircraft
    mission := initialMission
    activeMissionOrderId := none }

/-- Numeric value of a digit list, most significant digit first. -/
def digitsToNat (ds : List Char) : ℕ :=
  ds.foldl (fun n c => 10 * n + (c.toNat - 48)) 0

/-- Value of a digit list read as a decimal fraction `0.d₁d₂…`. -/
def fracValue (ds : List Char) : ℚ :=
  ds.foldr (fun c q => (((c.toNat - 48 : ℕ) : ℚ) + q) / 10) 0

/-- Exponent part of a JavaScript decimal literal: `e`/`E`, an optional
sign and at least one digit; anything else contributes exponent 0
(`parseFloat` keeps the longest valid prefix). -/
def expValue : List Char → ℤ
  | 'e' :: rest | 'E' :: rest =>
    let p : ℤ × List Char :=
      match rest with
      | '-' :: r => (-1, r)
      | '+' :: r => (1, r)
      | _ => (1, rest)
    let ds := p.2.takeWhile Char.isDigit
    if ds = [] then 0 else p.1 * (digitsToNat ds : ℤ)
  | _ => 0

/-- Model of the ECMAScript `parseFloat` builtin restricted to finite
decimal literals: skip leading whitespace, then read the longest prefix
of the form sign? digits ('.' digits?)? exponent? or sign? '.' digits
exponent?; `none` models the `NaN` result when no digits are read (the
special `Infinity` literal is not modelled; no caller passes it). -/
def jsParseFloat (s : String) : Option ℚ :=
  let cs := s.data.dropWhile (fun c => c == ' ' || c == '\t' || c == '\n' || c == '\r')
  let signed : ℚ × List Char :=
    match cs with
    | '-' :: rest => (-1, rest)
    | '+' :: rest => (1, rest)
    | _ => (1, cs)
  let intDigits := signed.2.takeWhile Char.isDigit
  let cs2 := signed.2.dropWhile Char.isDigit
  let fracPart : List Char × List Char :=
    match cs2 with
    | '.' :: rest => (rest.takeWhile Char.isDigit, rest.dropWhile Char.isDigit)
    | _ => ([], cs2)
  if intDigits = [] ∧ fracPart.1 = [] then none
  else some (signed.1 * ((digitsToNat intDigits : ℚ) + fracValue fracPart.1)
    * (10 : ℚ) ^ expValue fracPart.2)

/-- The expression `parseFloat(order.weight) || 2.0`: the default 2.0 is
taken when `parseFloat` yields `NaN` (no parse) or any falsy number,
i.e. `0` or `-0`. -/
noncomputable def jsWeight (w : String) : ℝ :=
  match jsParseFloat w with
  | none => 2
  | some q => if q = 0 then 2 else (q : ℝ)

/-- JavaScript truthiness of the `string | null` value
`activeMissionOrderId`: `null` and `""` are falsy. -/
def strTruthy : Option String → Bool
  | none => false
  | some t => t != ""

/-- `generateAerialRoute`: `numPoints + 1` points linearly interpolated
between the two endpoints, each point a `[lng, lat]` pair at fraction
`i / numPoints`. -/
noncomputable def generateAerialRoute (a b : Coord) (numPoints : ℕ := 50) :
    List (ℝ × ℝ) :=
  (List.range (numPoints + 1)).map (fun (i : ℕ) =>
    (a.lng + (b.lng - a.lng) * ((i : ℝ) / (numPoints : ℝ)),
     a.lat + (b.lat - a.lat) * ((i : ℝ) / (numPoints : ℝ))))

/-- `Math.atan2 y x`, the angle of the point `(x, y)`, realised as the
complex argument. -/
noncomputable def atan2 (y x : ℝ) : ℝ := Complex.arg ⟨x, y⟩

/-- `haversineDistance`: great-circle distance in km between two
coordinates with mean Earth radius 6371 km. -/
noncomputable def haversineDistance (a b : Coord) : ℝ :=
  let dLat := (b.lat - a.lat) * Real.pi / 180
  let dLng := (b.lng - a.lng) * Real.pi / 180
  let h := Real.sin (dLat / 2) ^ 2 +
    Real.cos (a.lat * Real.pi / 180) * Real.cos (b.lat * Real.pi / 180) *
      Real.sin (dLng / 2) ^ 2
  6371 * 2 * atan2 (Real.sqrt h) (Real.sqrt (1 - h))

/-- The fixed cruise speed `droneSpeed = 42` km/h. -/
def droneSpeed : ℝ := 42

/-- The `setInterval` period of the tick driver, in seconds
(`600` milliseconds). -/
noncomputable def tickPeriodSeconds : ℝ := 600 / 1000

/-- `approveOrder`: set the status of the order with the given id (if
any) to `Approved`. -/
def approveOrder (s : EngineState) (orderId : String) : EngineState :=
  { s with orders := s.orders.map (fun o =>
      if o.id = orderId then { o with status := OrderStatus.Approved } else o) }

/-- `rejectOrder`: remove every order whose id matches. -/
def rejectOrder (s : EngineState) (orderId : String) : EngineState :=
  { s with orders := s.orders.filter (fun o => o.id != orderId) }

/-- `addOrder`: append a caller-supplied order. -/
def addOrder (s : EngineState) (order : Order) : EngineState :=
  { s with orders := s.orders ++ [order] }

/-- `startMission`: silently return the state unchanged when the order
is missing, not `Approved`, when `activeMissionOrderId` is truthy, or
when either endpoint name is not in the location table; otherwise
resolve the endpoints, generate the route, compute distance and eta,
parse the weight, and initialize order / aircraft / mission /
active-mission-id state. -/
noncomputable def startMission (s : EngineState) (orderId : String) : EngineState :=
  match s.orders.find? (fun o => o.id == orderId) with
  | none => s
  | some order =>
    if order.status ≠ OrderStatus.Approved then s
    else if strTruthy s.activeMissionOrderId then s
    else
      match locationCoordinates order.pickup, locationCoordinates order.delivery with
      | some pickupCoord, some deliveryCoord =>
        let coordinates := generateAerialRoute pickupCoord deliveryCoord
        let distance := haversineDistance pickupCoord deliveryCoord
        let totalEta : ℝ := ((round (distance / droneSpeed * 3600) : ℤ) : ℝ)
        let weight := jsWeight order.weight
        { orders := s.orders.map (fun o =>
            if o.id = orderId then { o with status := OrderStatus.InFlight } else o)
          aircraft := { s.aircraft with
            status := AircraftStatus.InFlight
            payloadWeight := weight
            speed := some droneSpeed }
          mission :=
            { progress := 0
              elapsed := 0
              eta := totalEta
              distance := distance
              altitude := 150
              speed := droneSpeed
              routeProgress := 0
              route := coordinates }
          activeMissionOrderId := some orderId }
      | _, _ => s

/-- `emergencyStop`: return unchanged while `activeMissionOrderId` is
falsy; otherwise revert the active order to `Pending`, idle the
aircraft with payload 0, reset the mission to `initialMission` and
clear the active id. -/
def emergencyStop (s : EngineState) : EngineState :=
  match s.activeMissionOrderId with
  | none => s
  | some aid =>
    if aid = "" then s
    else
      { orders := s.orders.map (fun o =>
          if o.id = aid then { o with status := OrderStatus.Pending } else o)
        aircraft := { s.aircraft with
          status := AircraftStatus.Idle
          payloadWeight := 0 }
        mission := initialMission
        activeMissionOrderId := none }

/-- `returnHome`: return unchanged while `activeMissionOrderId` is
falsy; otherwise force mission progress to 95. -/
def returnHome (s : EngineState) : EngineState :=
  match s.activeMissionOrderId with
  | none => s
  | some aid =>
    if aid = "" then s
    else { s with mission := { s.mission with progress := 95 } }

/-- `toggleCamera`: flip the camera flag. -/
def toggleCamera (s : EngineState) : EngineState :=
  { s with aircraft := { s.aircraft with cameraActive := !s.aircraft.cameraActive } }

/-- The random draws consumed by one tick callback: `Math.random()` in
the speed jitter, the signal jitter and the satellite jitter. -/
structure TickRand where
  speedRand : ℝ
  signalRand : ℝ
  satRand : ℝ

/-- Body of the `setInterval` tick callback, for active order id `aid`:
the mission update (with the completion branch and its order / aircraft
/ active-id side effects) followed by the unconditional battery drain
and signal / satellite jitter. -/
noncomputable def tickBody (s : EngineState) (aid : String) (r : TickRand) :
    EngineState :=
  let prev := s.mission
  let newProgress := min (prev.progress + 1.5) 100
  let newRouteProgress := newProgress / 100
  let newElapsed := prev.elapsed + 1
  let remainingFraction := 1 - newRouteProgress
  let totalTime := prev.distance / (prev.speed / 3600)
  let newEta := max 0 (totalTime * remainingFraction)
  let altitudeVariation := 150 + Real.sin (newElapsed * 0.3) * 8
  let speedVariation := 40 + r.speedRand * 6
  let core : EngineState :=
    if 100 ≤ newProgress then
      { orders := s.orders.map (fun o =>
          if o.id = aid then { o with status := OrderStatus.Delivered } else o)
        aircraft := { s.aircraft with
          status := AircraftStatus.Idle
          payloadWeight := 0
          speed := some 0 }
        mission := { prev with
          progress := 100
          routeProgress := 1
          eta := 0
          speed := 0 }
        activeMissionOrderId := none }
    else
      { s with mission := { prev with
          progress := newProgress
          routeProgress := newRouteProgress
          elapsed := newElapsed
          eta := newEta
          altitude := ((round altitudeVariation : ℤ) : ℝ)
          speed := ((round speedVariation : ℤ) : ℝ) } }
  { core with aircraft := { core.aircraft with
      battery := max 0 (core.aircraft.battery - 0.08)
      signal := min 100 (max 85 (core.aircraft.signal + (r.signalRand - 0.5) * 2))
      satellites := max 8 (min 14 (core.aircraft.satellites +
        ((round ((r.satRand - 0.5) * 1) : ℤ) : ℝ))) } }

/-- One firing of the simulation tick.  The driving `useEffect` arms the
interval only while `activeMissionOrderId` is truthy, so the tick is the
identity otherwise. -/
noncomputable def tick (s : EngineState) (r : TickRand) : EngineState :=
  match s.activeMissionOrderId with
  | none => s
  | some aid => if aid = "" then s else tickBody s aid r

/-- States reachable from the initial hook state through the command
surface and the tick driver (ticks fire with arbitrary random draws). -/
inductive Reachable : EngineState → Prop where
  | init : Reachable initialState
  | approve (s : EngineState) (orderId : String) :
      Reachable s → Reachable (approveOrder s orderId)
  | reject (s : EngineState) (orderId : String) :
      Reachable s → Reachable (rejectOrder s orderId)
  | add (s : EngineState) (order : Order) :
      Reachable s → Reachable (addOrder s order)
  | start (s : EngineState) (orderId : String) :
      Reachable s → Reachable (startMission s orderId)
  | stop (s : EngineState) : Reachable s → Reachable (emergencyStop s)
  | home (s : EngineState) : Reachable s → Reachable (returnHome s)
  | camera (s : EngineState) : Reachable s → Reachable (toggleCamera s)
  | step (s : EngineState) (r : TickRand) :
      Reachable s → Reachable (tick s r)

/-! ### Helper lemmas -/

/-- A status-only update never changes an order's id. -/
theorem statusUpdate_id (o : Order) (orderId : String) (st : OrderStatus) :
    (if o.id = orderId then { o with status := st } else o).id = o.id := by
  split <;> rfl

/-- Mapping a status-only update over an order list preserves the ids. -/
theorem map_statusUpdate_ids (l : List Order) (orderId : String) (st : OrderStatus) :
    (l.map (fun o => if o.id = orderId then { o with status := st } else o)).map
      (fun o => o.id) = l.map (fun o => o.id) := by
  rw [List.map_map]
  apply List.map_congr_left
  intro o _
  exact statusUpdate_id o orderId st

/-- While the active id is a truthy string, a tick runs the callback body. -/
theorem tick_active (s : EngineState) (aid : String) (r : TickRand)
    (hact : s.activeMissionOrderId = some aid) (hne : aid ≠ "") :
    tick s r = tickBody s aid r := by
  simp only [tick, hact]
  rw [if_neg hne]

/-- Mission state written by a non-completing tick body. -/
theorem tickBody_mission_nonComplete (s : EngineState) (aid : String) (r : TickRand)
    (h : ¬ (100 : ℝ) ≤ min (s.mission.progress + 1.5) 100) :
    (tickBody s aid r).mission = { s.mission with
      progress := min (s.mission.progress + 1.5) 100
      routeProgress := min (s.mission.progress + 1.5) 100 / 100
      elapsed := s.mission.elapsed + 1
      eta := max 0 (s.mission.distance / (s.mission.speed / 3600) *
        (1 - min (s.mission.progress + 1.5) 100 / 100))
      altitude := ((round ((150 : ℝ) + Real.sin ((s.mission.elapsed + 1) * 0.3) * 8) : ℤ) : ℝ)
      speed := ((round ((40 : ℝ) + r.speedRand * 6) : ℤ) : ℝ) } := by
  simp only [tickBody]
  rw [if_neg h]

/-- Orders and active id are untouched by a non-completing tick body. -/
theorem tickBody_frame_nonComplete (s : EngineState) (aid : String) (r : TickRand)
    (h : ¬ (100 : ℝ) ≤ min (s.mission.progress + 1.5) 100) :
    (tickBody s aid r).orders = s.orders
    ∧ (tickBody s aid r).activeMissionOrderId = s.activeMissionOrderId := by
  simp only [tickBody]
  rw [if_neg h]
  exact ⟨rfl, rfl⟩

/-- Effects of a completing tick body: the active order is marked
`Delivered`, the aircraft is idled with payload 0 and speed 0, the
active id is cleared, and the mission keeps only progress 100,
routeProgress 1, eta 0 and speed 0 changed. -/
theorem tickBody_complete (s : EngineState) (aid : String) (r : TickRand)
    (h : (100 : ℝ) ≤ min (s.mission.progress + 1.5) 100) :
    (tickBody s aid r).orders = s.orders.map (fun o =>
      if o.id = aid then { o with status := OrderStatus.Delivered } else o)
    ∧ (tickBody s aid r).aircraft.status = AircraftStatus.Idle
    ∧ (tickBody s aid r).aircraft.payloadWeight = 0
    ∧ (tickBody s aid r).aircraft.speed = some 0
    ∧ (tickBody s aid r).activeMissionOrderId = none
    ∧ (tickBody s aid r).mission = { s.mission with
        progress := 100
        routeProgress := 1
        eta := 0
        speed := 0 } := by
  simp only [tickBody]
  rw [if_pos h]
  exact ⟨rfl, rfl, rfl, rfl, rfl, rfl⟩

/-- The orders after any tick body: either untouched (non-completion) or
with the active order marked `Delivered` (completion). -/
theorem tickBody_orders (s : EngineState) (aid : String) (r : TickRand) :
    (tickBody s aid r).orders = s.orders
    ∨ (tickBody s aid r).orders = s.orders.map (fun o =>
        if o.id = aid then { o with status := OrderStatus.Delivered } else o) := by
  simp only [tickBody]
  split
  · exact Or.inr rfl
  · exact Or.inl rfl

/-! ### Claim C6 -/

/-- Claim C6 (confirmed): for every pickup P and delivery D the generated
route has exactly 51 points (50 intervals); point 0 equals P, point 50
equals D, and the point at each index `i ≤ 50` is the linear
interpolation of longitude and latitude between P and D at fraction
`i / 50`. -/
theorem generateAerialRoute_spec (p d : Coord) :
    (generateAerialRoute p d 50).length = 51
    ∧ (generateAerialRoute p d 50)[0]? = some (p.lng, p.lat)
    ∧ (generateAerialRoute p d 50)[50]? = some (d.lng, d.lat)
    ∧ ∀ i : ℕ, i ≤ 50 → (generateAerialRoute p d 50)[i]? =
        some (p.lng + (d.lng - p.lng) * ((i : ℝ) / 50),
          p.lat + (d.lat - p.lat) * ((i : ℝ) / 50)) := by
  have key : ∀ i : ℕ, i < 51 → (generateAerialRoute p d 50)[i]? =
      some (p.lng + (d.lng - p.lng) * ((i : ℝ) / 50),
        p.lat + (d.lat - p.lat) * ((i : ℝ) / 50)) := by
    intro i hlt
    simp only [generateAerialRoute]
    rw [List.getElem?_map, List.getElem?_range hlt]
    simp only [Option.map_some', Option.some.injEq, Prod.mk.injEq]
    norm_num
  refine ⟨?_, ?_, ?_, fun i hi => key i (Nat.lt_succ_of_le hi)⟩
  · simp only [generateAerialRoute, List.length_map, List.length_range]
  · rw [key 0 (by norm_num)]
    norm_num
  · rw [key 50 (by norm_num)]
    simp only [Option.some.injEq, Prod.mk.injEq]
    norm_num

/-- Claim C6 witness: the route spec applied to concrete endpoints at
index 7. -/
theorem generateAerialRoute_spec_witness :
    (7 : ℕ) ≤ 50 ∧ (generateAerialRoute ⟨0, 0⟩ ⟨1, 1⟩ 50)[7]? =
      some ((Coord.mk 0 0).lng + ((Coord.mk 1 1).lng - (Coord.mk 0 0).lng) * (((7 : ℕ) : ℝ) / 50),
        (Coord.mk 0 0).lat + ((Coord.mk 1 1).lat - (Coord.mk 0 0).lat) * (((7 : ℕ) : ℝ) / 50)) :=
  ⟨by norm_num, (generateAerialRoute_spec ⟨0, 0⟩ ⟨1, 1⟩).2.2.2 7 (by norm_num)⟩

/-! ### Claim C8 -/

/-- The engine state after approving the seeded order `"ORD-4821"`. -/
def approvedState : EngineState := approveOrder initialState "ORD-4821"

/-- The engine state after then starting the mission for `"ORD-4821"`. -/
noncomputable def flyingState : EngineState := startMission approvedState "ORD-4821"

/-- Claim C8 (confirmed): `returnHome` is a no-op while the active id is
falsy; otherwise it changes only `mission.progress`, forcing it to 95:
orders, aircraft and the active id are untouched, and since 95 < 100 the
mission is not completed synchronously — completion still requires the
tick algorithm to reach 100. -/
theorem returnHome_spec :
    (∀ s : EngineState, strTruthy s.activeMissionOrderId = false → returnHome s = s)
    ∧ ∀ s : EngineState, ∀ aid : String,
        s.activeMissionOrderId = some aid → aid ≠ "" →
        (returnHome s).orders = s.orders
        ∧ (returnHome s).aircraft = s.aircraft
        ∧ (returnHome s).activeMissionOrderId = some aid
        ∧ (returnHome s).mission = { s.mission with progress := 95 }
        ∧ (returnHome s).mission.progress = 95
        ∧ ¬ (100 : ℝ) ≤ 95 := by
  constructor
  · intro s h
    cases hc : s.activeMissionOrderId with
    | none => simp [returnHome, hc]
    | some aid =>
      have ha : aid = "" := by simpa [strTruthy, hc] using h
      simp [returnHome, hc, ha]
  · intro s aid hact hne
    simp only [returnHome, hact]
    rw [if_neg hne]
    exact ⟨rfl, rfl, hact ▸ rfl, rfl, rfl, by norm_num⟩

/-- Claim C8 witness: `returnHome` applied to the falsy initial state and
to the concrete in-flight state. -/
theorem returnHome_spec_witness :
    returnHome initialState = initialState
    ∧ (returnHome flyingState).mission.progress = 95
    ∧ (returnHome flyingState).activeMissionOrderId = some "ORD-4821" := by
  refine ⟨returnHome_spec.1 initialState rfl, ?_, ?_⟩
  · exact (returnHome_spec.2 flyingState "ORD-4821" rfl (by decide)).2.2.2.2.1
  · exact (returnHome_spec.2 flyingState "ORD-4821" rfl (by decide)).2.2.1

/-! ### Claim C10 -/

/-- Claim C10 (confirmed): `rejectOrder` changes only the orders
collection — aircraft, mission and `activeMissionOrderId` are unchanged;
in particular rejecting the active mission's order keeps the mission
active (the id stays set, so the tick driver keeps firing), and no order
with the active id exists in the orders produced by any subsequent tick,
so the completion tick has nothing to mark `Delivered`. -/
theorem rejectOrder_frame_spec (s : EngineState) (orderId : String) :
    (rejectOrder s orderId).aircraft = s.aircraft
    ∧ (rejectOrder s orderId).mission = s.mission
    ∧ (rejectOrder s orderId).activeMissionOrderId = s.activeMissionOrderId
    ∧ ∀ aid : String, s.activeMissionOrderId = some aid →
        (rejectOrder s aid).activeMissionOrderId = some aid
        ∧ ∀ r : TickRand, ∀ o ∈ (tick (rejectOrder s aid) r).orders, o.id ≠ aid := by
  refine ⟨rfl, rfl, rfl, fun aid hact => ⟨hact, fun r o ho => ?_⟩⟩
  have hmem : ∀ x : Order, x ∈ (rejectOrder s aid).orders → x.id ≠ aid := by
    intro x hx
    have := List.of_mem_filter hx
    simpa using this
  by_cases hne : aid = ""
  · subst hne
    have ht : tick (rejectOrder s "") r = rejectOrder s "" := by
      simp [tick, rejectOrder, hact]
    rw [ht] at ho
    exact hmem o ho
  · have ht : tick (rejectOrder s aid) r = tickBody (rejectOrder s aid) aid r :=
      tick_active (rejectOrder s aid) aid r hact hne
    rw [ht] at ho
    rcases tickBody_orders (rejectOrder s aid) aid r with hord | hord
    · rw [hord] at ho
      exact hmem o ho
    · rw [hord] at ho
      rcases List.mem_map.mp ho with ⟨o2, ho2, rfl⟩
      rw [statusUpdate_id]
      exact hmem o2 ho2

/-- Claim C10 witness: rejecting the active order of the concrete
in-flight state keeps the mission active. -/
theorem rejectOrder_frame_spec_witness :
    (rejectOrder flyingState "ORD-4821").mission = flyingState.mission
    ∧ (rejectOrder flyingState "ORD-4821").activeMissionOrderId = some "ORD-4821" := by
  refine ⟨(rejectOrder_frame_spec flyingState "ORD-4821").2.1, ?_⟩
  exact ((rejectOrder_frame_spec flyingState "ORD-4821").2.2.2 "ORD-4821" rfl).1

/-! ### Claim C9 -/

/-- Claim C9 counterexample: after approval, `"ORD-4821"` has status
`Approved` — not `Pending` — yet `rejectOrder` still removes it from the
collection, so removal is not restricted to `Pending` orders. -/
theorem rejectOrder_nonPending_cex :
    approvedState.orders.find? (fun o => o.id == "ORD-4821") =
      some ⟨"ORD-4821", "Medical Supplies", "2.4 kg", "Warehouse A", "Hospital B",
        OrderStatus.Approved⟩
    ∧ OrderStatus.Approved ≠ OrderStatus.Pending
    ∧ (rejectOrder approvedState "ORD-4821").orders.find? (fun o => o.id == "ORD-4821") = none
    ∧ (rejectOrder approvedState "ORD-4821").orders.length = 5 := by
  decide

/-- Claim C9 (corrected): no command other than `rejectOrder` ever
removes an order (approve / start / stop / tick preserve the id
sequence, returnHome / toggleCamera leave orders untouched, addOrder
appends); `rejectOrder` removes every order whose id matches regardless
of its status, and rejecting an id that is not present is a no-op. -/
theorem orders_lifecycle_spec :
    (∀ (s : EngineState) (orderId : String),
      (approveOrder s orderId).orders.map (fun o => o.id) = s.orders.map (fun o => o.id))
    ∧ (∀ (s : EngineState) (orderId : String),
      (startMission s orderId).orders.map (fun o => o.id) = s.orders.map (fun o => o.id))
    ∧ (∀ s : EngineState,
      (emergencyStop s).orders.map (fun o => o.id) = s.orders.map (fun o => o.id))
    ∧ (∀ (s : EngineState) (r : TickRand),
      (tick s r).orders.map (fun o => o.id) = s.orders.map (fun o => o.id))
    ∧ (∀ s : EngineState, (returnHome s).orders = s.orders)
    ∧ (∀ s : EngineState, (toggleCamera s).orders = s.orders)
    ∧ (∀ (s : EngineState) (order : Order), (addOrder s order).orders = s.orders ++ [order])
    ∧ (∀ (s : EngineState) (orderId : String),
      (∀ o ∈ s.orders, o.id ≠ orderId) → rejectOrder s orderId = s)
    ∧ (∀ (s : EngineState) (orderId : String) (o : Order),
      o ∈ s.orders → o.id = orderId → o ∉ (rejectOrder s orderId).orders)
    ∧ (∀ (s : EngineState) (orderId : String),
      (rejectOrder s orderId).orders = s.orders.filter (fun o => o.id != orderId)) := by
  refine ⟨?_, ?_, ?_, ?_, ?_, fun s => rfl, fun s o => rfl, ?_, ?_, fun s orderId => rfl⟩
  · intro s orderId
    exact map_statusUpdate_ids s.orders orderId OrderStatus.Approved
  · intro s orderId
    unfold startMission
    split
    · rfl
    · split
      · rfl
      · split
        · rfl
        · split
          · exact map_statusUpdate_ids s.orders orderId OrderStatus.InFlight
          · rfl
  · intro s
    unfold emergencyStop
    split
    · rfl
    · split
      · rfl
      · exact map_statusUpdate_ids s.orders _ OrderStatus.Pending
  · intro s r
    unfold tick
    split
    · rfl
    · split
      · rfl
      · rcases tickBody_orders s _ r with h | h
        · rw [h]
        · rw [h]
          exact map_statusUpdate_ids s.orders _ OrderStatus.Delivered
  · intro s
    unfold returnHome
    split
    · rfl
    · split <;> rfl
  · intro s orderId h
    have : s.orders.filter (fun o => o.id != orderId) = s.orders :=
      List.filter_eq_self.mpr (fun o ho => by simpa using h o ho)
    cases s
    simp only [rejectOrder] at this ⊢
    rw [this]
  · intro s orderId o ho hid hmem
    have := List.of_mem_filter hmem
    simp [hid] at this

/-- Claim C9 witness: rejecting an absent id is a no-op on the whole
state, and rejecting a present id removes that order. -/
theorem orders_lifecycle_spec_witness :
    rejectOrder initialState "NOPE" = initialState
    ∧ (⟨"ORD-4821", "Medical Supplies", "2.4 kg", "Warehouse A", "Hospital B",
        OrderStatus.Pending⟩ : Order) ∉ (rejectOrder initialState "ORD-4821").orders := by
  constructor
  · exact orders_lifecycle_spec.2.2.2.2.2.2.2.1 initialState "NOPE" (by decide)
  · exact orders_lifecycle_spec.2.2.2.2.2.2.2.2.1 initialState "ORD-4821" _ (by decide) rfl

/-! ### Claim C7 -/

/-- Claim C7 counterexample: stopping the concrete in-flight mission
resets the mission, but the reset state's `altitude` is the default 150,
not zero — so "zeroed fields" fails for the altitude field. -/
theorem emergencyStop_altitude_cex :
    flyingState.activeMissionOrderId = some "ORD-4821"
    ∧ (emergencyStop flyingState).mission.altitude = 150
    ∧ (150 : ℝ) ≠ 0 := by
  exact ⟨rfl, rfl, by norm_num⟩

/-- Claim C7 (corrected): `emergencyStop` is a no-op while the active id
is falsy; otherwise it reverts the active order's status to `Pending`,
sets the aircraft to `Idle` with payload 0 leaving battery, maxPayload,
mode, signal, satellites and cameraActive unchanged, resets the mission
to its empty default `initialMission` — empty route, progress, elapsed,
eta, distance, speed and routeProgress all zero, and altitude at its
default 150 rather than zero — and clears the active id. -/
theorem emergencyStop_spec :
    (∀ s : EngineState, strTruthy s.activeMissionOrderId = false → emergencyStop s = s)
    ∧ ∀ s : EngineState, ∀ aid : String,
        s.activeMissionOrderId = some aid → aid ≠ "" →
        (emergencyStop s).orders = s.orders.map (fun o =>
          if o.id = aid then { o with status := OrderStatus.Pending } else o)
        ∧ (emergencyStop s).aircraft.status = AircraftStatus.Idle
        ∧ (emergencyStop s).aircraft.payloadWeight = 0
        ∧ (emergencyStop s).aircraft.battery = s.aircraft.battery
        ∧ (emergencyStop s).aircraft.maxPayload = s.aircraft.maxPayload
        ∧ (emergencyStop s).aircraft.mode = s.aircraft.mode
        ∧ (emergencyStop s).aircraft.signal = s.aircraft.signal
        ∧ (emergencyStop s).aircraft.satellites = s.aircraft.satellites
        ∧ (emergencyStop s).aircraft.cameraActive = s.aircraft.cameraActive
        ∧ (emergencyStop s).mission = initialMission
        ∧ initialMission.route = []
        ∧ initialMission.progress = 0
        ∧ initialMission.elapsed = 0
        ∧ initialMission.eta = 0
        ∧ initialMission.distance = 0
        ∧ initialMission.speed = 0
        ∧ initialMission.routeProgress = 0
        ∧ initialMission.altitude = 150
        ∧ (emergencyStop s).activeMissionOrderId = none := by
  constructor
  · intro s h
    cases hc : s.activeMissionOrderId with
    | none => simp [emergencyStop, hc]
    | some aid =>
      have ha : aid = "" := by simpa [strTruthy, hc] using h
      simp [emergencyStop, hc, ha]
  · intro s aid hact hne
    simp only [emergencyStop, hact]
    rw [if_neg hne]
    exact ⟨rfl, rfl, rfl, rfl, rfl, rfl, rfl, rfl, rfl, rfl, rfl, rfl, rfl, rfl, rfl,
      rfl, rfl, rfl, rfl⟩

/-- Claim C7 witness: `emergencyStop` on the falsy initial state and on
the concrete in-flight state. -/
theorem emergencyStop_spec_witness :
    emergencyStop initialState = initialState
    ∧ (emergencyStop flyingState).mission = initialMission
    ∧ (emergencyStop flyingState).activeMissionOrderId = none := by
  refine ⟨emergencyStop_spec.1 initialState rfl, ?_, ?_⟩
  · exact (emergencyStop_spec.2 flyingState "ORD-4821" rfl (by decide)).2.2.2.2.2.2.2.2.2.1
  · exact (emergencyStop_spec.2 flyingState "ORD-4821" rfl
      (by decide)).2.2.2.2.2.2.2.2.2.2.2.2.2.2.2.2.2.2

/-! ### Claim C2 -/

/-- A caller-supplied order whose id is the empty string; `addOrder`
appends it without validation. -/
def emptyIdOrder : Order :=
  ⟨"", "Bootleg", "1.0 kg", "Warehouse A", "Hospital B", OrderStatus.Approved⟩

/-- The engine state after starting a mission for the empty-string id:
`activeMissionOrderId` is `some ""` — set, but falsy in JavaScript. -/
noncomputable def ghostState : EngineState :=
  startMission (addOrder approvedState emptyIdOrder) ""

/-- Claim C2 counterexample: in `ghostState` the active-mission id is
set (to `""`), yet `startMission "ORD-4821"` is not a no-op — the guard
`if (activeMissionOrderId)` treats the empty string as falsy, so the
mission starts and the active id changes. -/
theorem startMission_active_set_cex :
    ghostState.activeMissionOrderId.isSome = true
    ∧ (startMission ghostState "ORD-4821").activeMissionOrderId ≠
        ghostState.activeMissionOrderId := by
  refine ⟨rfl, ?_⟩
  have h1 : ghostState.activeMissionOrderId = some "" := rfl
  have h2 : (startMission ghostState "ORD-4821").activeMissionOrderId = some "ORD-4821" := rfl
  rw [h1, h2]
  simp

/-- Claim C2 (corrected): `startMission` leaves the whole state
unchanged with no caller-visible error whenever the order is absent, the
order's status is not `Approved`, `activeMissionOrderId` holds a
non-empty string (JavaScript truthiness: an empty-string active id does
not block a new mission), or an endpoint name is not in the location
table. -/
theorem startMission_noop (s : EngineState) (orderId : String)
    (h : s.orders.find? (fun o => o.id == orderId) = none
      ∨ (∃ o, s.orders.find? (fun o => o.id == orderId) = some o
          ∧ o.status ≠ OrderStatus.Approved)
      ∨ strTruthy s.activeMissionOrderId = true
      ∨ (∃ o, s.orders.find? (fun o => o.id == orderId) = some o
          ∧ (locationCoordinates o.pickup = none ∨ locationCoordinates o.delivery = none))) :
    startMission s orderId = s := by
  rcases hfind : s.orders.find? (fun o => o.id == orderId) with _ | o
  · simp [startMission, hfind]
  · by_cases h1 : o.status = OrderStatus.Approved
    · by_cases h2 : strTruthy s.activeMissionOrderId = true
      · simp [startMission, hfind, h2]
      · rcases h with h | ⟨o2, ho2, hst⟩ | h | ⟨o2, ho2, hloc⟩
        · rw [hfind] at h
          cases h
        · rw [hfind] at ho2
          injection ho2 with ho2e
          subst ho2e
          exact absurd h1 hst
        · exact absurd h h2
        · rw [hfind] at ho2
          injection ho2 with ho2e
          subst ho2e
          have h2f : strTruthy s.activeMissionOrderId = false := by
            simpa using h2
          rcases hloc with hploc | hdloc
          · simp [startMission, hfind, h1, h2f, hploc]
          · cases hp : locationCoordinates o.pickup with
            | none => simp [startMission, hfind, h1, h2f, hp]
            | some p => simp [startMission, hfind, h1, h2f, hp, hdloc]
    · simp [startMission, hfind, h1]

/-- Claim C2 witness: starting an absent order id on the initial state
is a no-op. -/
theorem startMission_noop_witness :
    startMission initialState "NOPE" = initialState :=
  startMission_noop initialState "NOPE" (Or.inl (by decide))

/-! ### Claim C1 -/

/-- The claimed invariant: `routeProgress` mirrors `progress / 100`. -/
def missionInv (s : EngineState) : Prop :=
  s.mission.routeProgress = s.mission.progress / 100

/-- The reachable state obtained by approving and starting `"ORD-4821"`
and then calling `returnHome`. -/
noncomputable def brokenState : EngineState := returnHome flyingState

/-- Claim C1 counterexample: `brokenState` is reachable, yet its
`routeProgress` (still 0) differs from `progress / 100` (= 95 / 100):
`returnHome` forces `progress := 95` without updating `routeProgress`,
so the invariant does not hold after every engine operation. -/
theorem routeProgress_returnHome_cex :
    Reachable brokenState
    ∧ brokenState.mission.routeProgress ≠ brokenState.mission.progress / 100 := by
  constructor
  · exact Reachable.home _ (Reachable.start _ _ (Reachable.approve _ _ Reachable.init))
  · have h1 : brokenState.mission.routeProgress = 0 := rfl
    have h2 : brokenState.mission.progress = 95 := rfl
    rw [h1, h2]
    norm_num

/-- Claim C1 (corrected): in any state satisfying
`routeProgress = progress / 100`, the equality still holds after
`approveOrder`, `rejectOrder`, `addOrder`, `startMission`,
`emergencyStop`, `toggleCamera` and every tick — but not, in general,
after `returnHome` (see the counterexample). -/
theorem routeProgress_invariant (s : EngineState) (h : missionInv s) :
    (∀ orderId : String, missionInv (approveOrder s orderId))
    ∧ (∀ orderId : String, missionInv (rejectOrder s orderId))
    ∧ (∀ order : Order, missionInv (addOrder s order))
    ∧ (∀ orderId : String, missionInv (startMission s orderId))
    ∧ missionInv (emergencyStop s)
    ∧ missionInv (toggleCamera s)
    ∧ ∀ r : TickRand, missionInv (tick s r) := by
  refine ⟨fun orderId => h, fun orderId => h, fun order => h, ?_, ?_, h, ?_⟩
  · intro orderId
    unfold missionInv startMission
    split
    · exact h
    · split
      · exact h
      · split
        · exact h
        · split
          · show (0 : ℝ) = 0 / 100
            norm_num
          · exact h
  · unfold missionInv emergencyStop
    split
    · exact h
    · split
      · exact h
      · show (0 : ℝ) = 0 / 100
        norm_num
  · intro r
    unfold missionInv tick
    split
    · exact h
    · split
      · exact h
      · show missionInv (tickBody s _ r)
        unfold missionInv
        simp only [tickBody]
        split
        · show (1 : ℝ) = 100 / 100
          norm_num
        · rfl

/-- Claim C1 witness: the invariant holds initially and is carried
through a camera toggle and a tick of the initial state. -/
theorem routeProgress_invariant_witness :
    missionInv (toggleCamera initialState)
    ∧ missionInv (tick initialState ⟨0, 0, 0⟩) := by
  have h0 : missionInv initialState := by
    show (0 : ℝ) = 0 / 100
    norm_num
  exact ⟨(routeProgress_invariant initialState h0).2.2.2.2.2.1,
    (routeProgress_invariant initialState h0).2.2.2.2.2.2 ⟨0, 0, 0⟩⟩

/-! ### Claim C3 -/

/-- The weight string `"0 kg"` parses successfully, to zero. -/
theorem jsParseFloat_zero_kg : jsParseFloat "0 kg" = some 0 := by
  have h1 : jsParseFloat "0 kg" = some ((1 : ℚ) * ((digitsToNat ['0'] : ℚ) + fracValue [])
      * (10 : ℚ) ^ expValue [' ', 'k', 'g']) := rfl
  have h2 : digitsToNat ['0'] = 0 := rfl
  have h3 : fracValue [] = 0 := rfl
  have h4 : expValue [' ', 'k', 'g'] = 0 := rfl
  rw [h1, h2, h3, h4]
  norm_num

/-- An approved order whose weight string parses to zero. -/
def zeroWeightOrder : Order :=
  ⟨"OZ", "Ballast", "0 kg", "Warehouse A", "Hospital B", OrderStatus.Approved⟩

/-- A state holding the zero-weight order, with no active mission. -/
def zeroWeightState : EngineState := addOrder initialState zeroWeightOrder

/-- Claim C3 counterexample: the weight string `"0 kg"` is parsable
(it parses to 0), yet starting its mission sets the aircraft payload to
the default constant 2 — the fallback is also taken for a parsed zero,
not only for unparsable strings, because `parseFloat(w) || 2.0` treats
the falsy number 0 like `NaN`. -/
theorem startMission_zero_weight_cex :
    jsParseFloat zeroWeightOrder.weight = some 0
    ∧ (startMission zeroWeightState "OZ").aircraft.payloadWeight = 2
    ∧ (2 : ℝ) ≠ 0 := by
  refine ⟨jsParseFloat_zero_kg, ?_, by norm_num⟩
  have h : (startMission zeroWeightState "OZ").aircraft.payloadWeight = jsWeight "0 kg" := rfl
  rw [h]
  simp [jsWeight, jsParseFloat_zero_kg]

/-- Claim C3 (corrected): whenever the preconditions hold — order found
with status `Approved`, the active id falsy, both endpoint names
resolving — `startMission` sets the active id, marks the order
`In Flight`, sets the aircraft `In Flight` with payload
`parseFloat(weight) || 2.0` (the default 2.0 is taken when the weight
string is unparsable *or parses to zero*), and initializes the mission
with progress 0, elapsed 0, eta rounded from distance over the fixed
cruise speed, the haversine distance, the default cruise altitude 150,
and the generated 51-point route. -/
theorem startMission_success (s : EngineState) (orderId : String) (o : Order) (p d : Coord)
    (hfind : s.orders.find? (fun x => x.id == orderId) = some o)
    (happ : o.status = OrderStatus.Approved)
    (hact : strTruthy s.activeMissionOrderId = false)
    (hp : locationCoordinates o.pickup = some p)
    (hd : locationCoordinates o.delivery = some d) :
    (startMission s orderId).activeMissionOrderId = some orderId
    ∧ (startMission s orderId).orders = s.orders.map (fun x =>
        if x.id = orderId then { x with status := OrderStatus.InFlight } else x)
    ∧ (startMission s orderId).aircraft.status = AircraftStatus.InFlight
    ∧ (startMission s orderId).aircraft.payloadWeight = jsWeight o.weight
    ∧ (∀ q : ℚ, jsParseFloat o.weight = some q → q ≠ 0 → jsWeight o.weight = (q : ℝ))
    ∧ (jsParseFloat o.weight = none → jsWeight o.weight = 2)
    ∧ (jsParseFloat o.weight = some 0 → jsWeight o.weight = 2)
    ∧ (startMission s orderId).mission.progress = 0
    ∧ (startMission s orderId).mission.elapsed = 0
    ∧ (startMission s orderId).mission.eta =
        ((round (haversineDistance p d / droneSpeed * 3600) : ℤ) : ℝ)
    ∧ (startMission s orderId).mission.distance = haversineDistance p d
    ∧ (startMission s orderId).mission.altitude = 150
    ∧ (startMission s orderId).mission.route = generateAerialRoute p d 50 := by
  have hred : startMission s orderId =
      { orders := s.orders.map (fun x =>
          if x.id = orderId then { x with status := OrderStatus.InFlight } else x)
        aircraft := { s.aircraft with
          status := AircraftStatus.InFlight
          payloadWeight := jsWeight o.weight
          speed := some droneSpeed }
        mission :=
          { progress := 0
            elapsed := 0
            eta := ((round (haversineDistance p d / droneSpeed * 3600) : ℤ) : ℝ)
            distance := haversineDistance p d
            altitude := 150
            speed := droneSpeed
            routeProgress := 0
            route := generateAerialRoute p d 50 }
        activeMissionOrderId := some orderId } := by
    simp [startMission, hfind, happ, hact, hp, hd]
  refine ⟨by rw [hred], by rw [hred], by rw [hred], by rw [hred], ?_, ?_, ?_,
    by rw [hred], by rw [hred], by rw [hred], by rw [hred], by rw [hred], by rw [hred]⟩
  · intro q hq hqz
    simp [jsWeight, hq, hqz]
  · intro hq
    simp [jsWeight, hq]
  · intro hq
    simp [jsWeight, hq]

/-- Claim C3 witness: starting the approved seeded order `"ORD-4821"`
initializes the mission from the `Warehouse A` and `Hospital B`
coordinates. -/
theorem startMission_success_witness :
    (startMission approvedState "ORD-4821").activeMissionOrderId = some "ORD-4821"
    ∧ (startMission approvedState "ORD-4821").mission.distance =
        haversineDistance ⟨13.0827, 80.2707⟩ ⟨13.0604, 80.2496⟩
    ∧ (startMission approvedState "ORD-4821").mission.route =
        generateAerialRoute ⟨13.0827, 80.2707⟩ ⟨13.0604, 80.2496⟩ 50 := by
  have h := startMission_success approvedState "ORD-4821"
    ⟨"ORD-4821", "Medical Supplies", "2.4 kg", "Warehouse A", "Hospital B",
      OrderStatus.Approved⟩
    ⟨13.0827, 80.2707⟩ ⟨13.0604, 80.2496⟩ (by decide) rfl rfl rfl rfl
  exact ⟨h.1, h.2.2.2.2.2.2.2.2.2.2.1, h.2.2.2.2.2.2.2.2.2.2.2.2⟩

/-! ### Claim C4 -/

/-- Mission progress never exceeds 100 in any reachable state. -/
theorem reachable_progress_le (s : EngineState) (h : Reachable s) :
    s.mission.progress ≤ 100 := by
  induction h with
  | init =>
    show (0 : ℝ) ≤ 100
    norm_num
  | approve s orderId _ ih => exact ih
  | reject s orderId _ ih => exact ih
  | add s order _ ih => exact ih
  | camera s _ ih => exact ih
  | start s orderId _ ih =>
    unfold startMission
    split
    · exact ih
    · split
      · exact ih
      · split
        · exact ih
        · split
          · show (0 : ℝ) ≤ 100
            norm_num
          · exact ih
  | stop s _ ih =>
    unfold emergencyStop
    split
    · exact ih
    · split
      · exact ih
      · show (0 : ℝ) ≤ 100
        norm_num
  | home s _ ih =>
    unfold returnHome
    split
    · exact ih
    · split
      · exact ih
      · show (95 : ℝ) ≤ 100
        norm_num
  | step s r _ ih =>
    unfold tick
    split
    · exact ih
    · split
      · exact ih
      · simp only [tickBody]
        split
        · show (100 : ℝ) ≤ 100
          norm_num
        · exact min_le_right _ _

/-- Claim C4 (confirmed): progress never exceeds 100 on reachable
states; every tick fired while a mission is active is monotone and
clamped at 100; and the tick on which progress reaches 100 (that is,
when `progress + 1.5 ≥ 100`) marks the active order `Delivered`, idles
the aircraft with payload 0 and speed 0, clears the active id and sets
mission progress 100, routeProgress 1, eta 0 and speed 0, all within
that single tick. -/
theorem tick_progress_spec :
    (∀ s : EngineState, Reachable s → s.mission.progress ≤ 100)
    ∧ ∀ (s : EngineState) (aid : String) (r : TickRand),
        s.activeMissionOrderId = some aid → aid ≠ "" → s.mission.progress ≤ 100 →
        s.mission.progress ≤ (tick s r).mission.progress
        ∧ (tick s r).mission.progress ≤ 100
        ∧ ((100 : ℝ) ≤ s.mission.progress + 1.5 →
            (tick s r).orders = s.orders.map (fun o =>
              if o.id = aid then { o with status := OrderStatus.Delivered } else o)
            ∧ (tick s r).aircraft.status = AircraftStatus.Idle
            ∧ (tick s r).aircraft.payloadWeight = 0
            ∧ (tick s r).aircraft.speed = some 0
            ∧ (tick s r).activeMissionOrderId = none
            ∧ (tick s r).mission.progress = 100
            ∧ (tick s r).mission.routeProgress = 1
            ∧ (tick s r).mission.eta = 0
            ∧ (tick s r).mission.speed = 0) := by
  refine ⟨reachable_progress_le, ?_⟩
  intro s aid r hact hne hle
  rw [tick_active s aid r hact hne]
  by_cases hc : (100 : ℝ) ≤ min (s.mission.progress + 1.5) 100
  · obtain ⟨ho, ha1, ha2, ha3, hid, hm⟩ := tickBody_complete s aid r hc
    refine ⟨?_, ?_, fun _ => ⟨ho, ha1, ha2, ha3, hid, ?_, ?_, ?_, ?_⟩⟩
    · rw [hm]
      exact hle
    · rw [hm]
    · rw [hm]
    · rw [hm]
    · rw [hm]
    · rw [hm]
  · have hm := tickBody_mission_nonComplete s aid r hc
    refine ⟨?_, ?_, fun hcomp => absurd (min_eq_right hcomp).ge hc⟩
    · rw [hm]
      exact le_min (by linarith) hle
    · rw [hm]
      exact min_le_right _ _

/-- A hand-built in-flight state one tick away from completion. -/
noncomputable def completionState : EngineState :=
  { orders := [⟨"A", "Box", "1 kg", "Warehouse A", "Hospital B", OrderStatus.InFlight⟩]
    aircraft := initialAircraft
    mission :=
      { progress := 99
        elapsed := 10
        eta := 5
        distance := 1
        altitude := 150
        speed := 42
        routeProgress := 99 / 100
        route := [] }
    activeMissionOrderId := some "A" }

/-- Claim C4 witness: the reachability bound at the initial state, and
the completion tick fired on the concrete near-complete state. -/
theorem tick_progress_spec_witness :
    initialState.mission.progress ≤ 100
    ∧ (tick completionState ⟨0, 0, 0⟩).mission.progress = 100
    ∧ (tick completionState ⟨0, 0, 0⟩).activeMissionOrderId = none := by
  have h := tick_progress_spec.2 completionState "A" ⟨0, 0, 0⟩ rfl (by decide)
    (show (99 : ℝ) ≤ 100 by norm_num)
  have hc := h.2.2 (show (100 : ℝ) ≤ 99 + 1.5 by norm_num)
  exact ⟨tick_progress_spec.1 initialState Reachable.init, hc.2.2.2.2.2.1, hc.2.2.2.2.1⟩

/-! ### Claim C5 -/

/-- Claim C5 (corrected): a non-completing tick adds exactly 1 second to
`elapsed` — not the 0.6-second tick period — and recomputes `eta` as
`max 0 (distance / (speed / 3600) * (1 - newProgress / 100))` from the
mission's *current* fields: `distance` is indeed the unchanged original
total, but `speed` is the mission's current speed field, which later
ticks overwrite with jittered values. -/
theorem tick_elapsed_eta_spec (s : EngineState) (aid : String) (r : TickRand)
    (hact : s.activeMissionOrderId = some aid) (hne : aid ≠ "")
    (hlt : s.mission.progress + 1.5 < 100) :
    (tick s r).mission.elapsed = s.mission.elapsed + 1
    ∧ (tick s r).mission.eta = max 0 (s.mission.distance / (s.mission.speed / 3600) *
        (1 - min (s.mission.progress + 1.5) 100 / 100))
    ∧ (tick s r).mission.distance = s.mission.distance := by
  rw [tick_active s aid r hact hne]
  have hc : ¬ (100 : ℝ) ≤ min (s.mission.progress + 1.5) 100 := by
    rw [min_eq_left (le_of_lt hlt)]
    exact not_le.mpr hlt
  rw [tickBody_mission_nonComplete s aid r hc]
  exact ⟨rfl, rfl, rfl⟩

/-- A hand-built in-flight state with distance 100 km at cruise speed. -/
def etaProbeState : EngineState :=
  { orders := []
    aircraft := initialAircraft
    mission :=
      { progress := 0
        elapsed := 0
        eta := 0
        distance := 100
        altitude := 150
        speed := 42
        routeProgress := 0
        route := [] }
    activeMissionOrderId := some "A" }

/-- Claim C5 witness: the non-completing tick on the concrete probe
state adds one second and keeps the distance. -/
theorem tick_elapsed_eta_spec_witness :
    (tick etaProbeState ⟨0, 0, 0⟩).mission.elapsed = 0 + 1
    ∧ (tick etaProbeState ⟨0, 0, 0⟩).mission.distance = 100 := by
  have h := tick_elapsed_eta_spec etaProbeState "A" ⟨0, 0, 0⟩ rfl (by decide)
    (show (0 : ℝ) + 1.5 < 100 by norm_num)
  exact ⟨h.1, h.2.2⟩

/-- Claim C5 counterexample: the tick period is 0.6 seconds but a tick
adds 1 second to `elapsed`; and after two ticks (the first having
jittered the mission speed from 42 down to 40), `eta` is 8730, not the
value the claim computes from the fixed cruise speed 42. -/
theorem tick_period_eta_cex :
    tickPeriodSeconds = 3 / 5
    ∧ (tick etaProbeState ⟨0, 0, 0⟩).mission.elapsed = 1
    ∧ (1 : ℝ) ≠ 0 + tickPeriodSeconds
    ∧ (tick (tick etaProbeState ⟨0, 0, 0⟩) ⟨0, 0, 0⟩).mission.eta = 8730
    ∧ (8730 : ℝ) ≠ max 0 (100 / (42 / 3600) * (1 - min ((0 + 1.5) + 1.5) 100 / 100)) := by
  have hne : ("A" : String) ≠ "" := by decide
  have hc1 : ¬ (100 : ℝ) ≤ min ((0 : ℝ) + 1.5) 100 := by
    rw [min_eq_left (by norm_num : (0 : ℝ) + 1.5 ≤ 100)]
    norm_num
  have h1 : tick etaProbeState ⟨0, 0, 0⟩ = tickBody etaProbeState "A" ⟨0, 0, 0⟩ :=
    tick_active etaProbeState "A" ⟨0, 0, 0⟩ rfl hne
  have hm1 := tickBody_mission_nonComplete etaProbeState "A" ⟨0, 0, 0⟩ hc1
  have hp1 : (tick etaProbeState ⟨0, 0, 0⟩).mission.progress = 1.5 := by
    rw [h1, hm1]
    show min ((0 : ℝ) + 1.5) 100 = 1.5
    rw [min_eq_left (by norm_num : (0 : ℝ) + 1.5 ≤ 100)]
    norm_num
  have hd1 : (tick etaProbeState ⟨0, 0, 0⟩).mission.distance = 100 := by
    rw [h1, hm1]
    rfl
  have hs1 : (tick etaProbeState ⟨0, 0, 0⟩).mission.speed = 40 := by
    rw [h1, hm1]
    show ((round ((40 : ℝ) + 0 * 6) : ℤ) : ℝ) = 40
    norm_num
  have hact1 : (tick etaProbeState ⟨0, 0, 0⟩).activeMissionOrderId = some "A" := by
    rw [h1, (tickBody_frame_nonComplete etaProbeState "A" ⟨0, 0, 0⟩ hc1).2]
    rfl
  have hc2 : ¬ (100 : ℝ) ≤ min ((tick etaProbeState ⟨0, 0, 0⟩).mission.progress + 1.5) 100 := by
    rw [hp1, min_eq_left (by norm_num : (1.5 : ℝ) + 1.5 ≤ 100)]
    norm_num
  have h2 : tick (tick etaProbeState ⟨0, 0, 0⟩) ⟨0, 0, 0⟩ =
      tickBody (tick etaProbeState ⟨0, 0, 0⟩) "A" ⟨0, 0, 0⟩ :=
    tick_active _ "A" ⟨0, 0, 0⟩ hact1 hne
  have hm2 := tickBody_mission_nonComplete (tick etaProbeState ⟨0, 0, 0⟩) "A" ⟨0, 0, 0⟩ hc2
  refine ⟨by norm_num [tickPeriodSeconds], ?_, by norm_num [tickPeriodSeconds], ?_, ?_⟩
  · rw [h1, hm1]
    show (0 : ℝ) + 1 = 1
    norm_num
  · rw [h2, hm2, hp1, hd1, hs1]
    rw [min_eq_left (by norm_num : (1.5 : ℝ) + 1.5 ≤ 100)]
    rw [max_eq_right (by norm_num : (0 : ℝ) ≤ 100 / (40 / 3600) * (1 - (1.5 + 1.5) / 100))]
    norm_num
  · rw [min_eq_left (by norm_num : ((0 : ℝ) + 1.5) + 1.5 ≤ 100)]
    rw [max_eq_right (by norm_num : (0 : ℝ) ≤ 100 / (42 / 3600) * (1 - ((0 + 1.5) + 1.5) / 100))]
    norm_num

end AeroDense
